import Mathlib

/-!
Shallow embedding of the news backend in `webapp.py` (repository korolhresti/105),
covering the endpoints and background task that the verified claims are about:
`get_news_for_user_api` (GET /news/user_id), `save_rating_api` (POST /rate),
`block_source_api` (POST /block), `add_bookmark_api` (POST /bookmarks/add),
`switch_custom_feed_api` (POST /custom_feeds/switch), `accept_invite_api`
(POST /invite/accept), `update_user_stats` and `send_auto_notifications_task`.

Database tables are modelled as lists of rows; SQL upserts (`ON CONFLICT ... DO
UPDATE` / `DO NOTHING`) become explicit lookup-then-update functions; the
endpoints become pure functions from a database state (plus request arguments)
to a response and a new database state.  Timestamps are integers.

One fact dominates the news-feed endpoint: `get_news_for_user_api` builds its
SQL with the f-string `$ {param_idx}` — with a space — so the statement it
sends always ends `ORDER BY n.published_at DESC LIMIT $ 2 OFFSET $ 3` (and,
with a filter row set, also carries conditions such as `$ 2 = ANY(n.tags)`
and `n.source ILIKE $ 3`).  `$ 2` is not a PostgreSQL positional parameter
(those are written contiguously, `$2`, as the same file does elsewhere with
`${param_idx}` in `register_user_api`), so the statement is a syntax error:
`conn.fetch` raises for every known user, the handler (try/finally, no
except) surfaces HTTP 500, and the post-fetch view/stats write-back loop is
dead code.  The model below reflects that: the endpoint either returns an
empty page (unknown user) or a server error, and never changes the database.
-/

namespace News105

/-- A row of the `news` table.  The resolver's SELECT reads
`id, title, content, lang, country, tags, source, link` and orders by
`published_at`.  The columns `expires_at`, `is_duplicate` and
`moderation_status` come from the spec's data model for NewsItem; the table
carries them but no query in `webapp.py` ever mentions them. -/
structure NewsItem where
  id : Nat
  title : String
  content : String
  lang : String
  country : String
  tags : List String
  source : String
  link : Option String
  published_at : Int
  expires_at : Int
  is_duplicate : Bool
  moderation_status : String
deriving DecidableEq, Repr

/-- A row of the `filters` table: `SELECT tag, category, source, language,
country, content_type FROM filters WHERE user_id = $1`.  A `none` field is a
SQL NULL, which the endpoint's `if filters['x']:` test treats as absent. -/
structure FilterRow where
  user_id : Nat
  tag : Option String
  category : Option String
  source : Option String
  language : Option String
  country : Option String
  content_type : Option String
deriving DecidableEq, Repr

/-- A row of the `blocks` table, written by `block_source_api`
(`INSERT ... ON CONFLICT (user_id, block_type, value) DO NOTHING`). -/
structure BlockRow where
  user_id : Nat
  block_type : String
  value : String
deriving DecidableEq, Repr

/-- The columns of the `users` table that the modelled endpoints read or
write: internal id, external `telegram_id`, `current_feed_id`,
`auto_notifications`, `inviter_id`. -/
structure UserRow where
  id : Nat
  telegram_id : Nat
  current_feed_id : Option Nat
  auto_notifications : Bool
  inviter_id : Option Nat
deriving DecidableEq, Repr

/-- A row of `user_news_views`.  The timestamp columns `first_viewed_at` and
`last_viewed_at` are elided: no modelled query reads them. -/
structure UserNewsView where
  user_id : Nat
  news_id : Nat
  viewed : Bool
deriving DecidableEq, Repr

/-- A row of `user_stats` with the three counters `update_user_stats`
maintains (`viewed`, `saved`, `reported`); `last_active` is elided. -/
structure UserStatsRow where
  user_id : Nat
  viewed : Nat
  saved : Nat
  reported : Nat
deriving DecidableEq, Repr

/-- A row of the `ratings` table, unique on (user_id, news_id). -/
structure RatingRow where
  user_id : Nat
  news_id : Nat
  value : Int
deriving DecidableEq, Repr

/-- A row of the `bookmarks` table, unique on (user_id, news_id). -/
structure BookmarkRow where
  user_id : Nat
  news_id : Nat
deriving DecidableEq, Repr

/-- A row of the `invites` table. -/
structure InviteRow where
  id : Nat
  inviter_user_id : Nat
  invite_code : String
  invited_user_id : Option Nat
  accepted_at : Option Int
deriving DecidableEq, Repr

/-- A row of the `custom_feeds` table; `filters` is the JSONB mapping from
filter kind to allowed values. -/
structure CustomFeed where
  id : Nat
  user_id : Nat
  feed_name : String
  filters : List (String × List String)
deriving DecidableEq, Repr

/-- The database state shared by all endpoints. -/
structure DB where
  users : List UserRow
  news : List NewsItem
  filters : List FilterRow
  user_news_views : List UserNewsView
  blocks : List BlockRow
  ratings : List RatingRow
  bookmarks : List BookmarkRow
  user_stats : List UserStatsRow
  invites : List InviteRow
  custom_feeds : List CustomFeed
deriving DecidableEq, Repr

/-- HTTP response skeleton: status code plus whether the JSON body is an
error object.  FastAPI returns status 200 for a plain `return`; an
`HTTPException` carries its own status code. -/
structure ApiResponse where
  status : Nat
  isError : Bool
deriving DecidableEq, Repr

/-- ASCII lower-casing of one character, for modelling SQL `ILIKE`. -/
def lowerChar (c : Char) : Char :=
  if c.toNat ≥ 65 && c.toNat ≤ 90 then Char.ofNat (c.toNat + 32) else c

/-- SQL `ILIKE` with a literal pattern: the stored filter values contain no
wildcard metacharacters, so `ILIKE` is case-insensitive equality. -/
def ilike (s pat : String) : Bool :=
  s.data.map lowerChar == pat.data.map lowerChar

/-- `SELECT ... FROM users WHERE telegram_id = $1` (first row). -/
def findUserByTelegram (db : DB) (tid : Nat) : Option UserRow :=
  db.users.find? (fun u => u.telegram_id == tid)

/-- `SELECT ... FROM filters WHERE user_id = $1` (fetchrow = first row). -/
def lookupFilter (db : DB) (uid : Nat) : Option FilterRow :=
  db.filters.find? (fun f => f.user_id == uid)

/-- Whether `user_news_views` has any row for (uid, nid) — the resolver's
`LEFT JOIN user_news_views uv ... WHERE uv.news_id IS NULL` excludes a news
row exactly when such a row exists (regardless of its `viewed` flag). -/
def hasView (views : List UserNewsView) (uid nid : Nat) : Bool :=
  views.any fun v => v.user_id == uid && v.news_id == nid

/-- The intended meaning of the `filter_conditions` strings that
`get_news_for_user_api` and the auto-notifier append for a present filter
row: `tag`, `category` and `content_type` each test `= ANY(n.tags)`;
`source`, `language` and `country` test `ILIKE` on the corresponding
column.  As emitted, these conditions carry the malformed placeholder
`$ 2` (space included) and are never evaluated by the database; this
definition records what the condition text means. -/
def matchesFilter (f : FilterRow) (n : NewsItem) : Bool :=
  (match f.tag with | some t => n.tags.contains t | none => true) &&
  (match f.category with | some c => n.tags.contains c | none => true) &&
  (match f.source with | some s => ilike n.source s | none => true) &&
  (match f.language with | some l => ilike n.lang l | none => true) &&
  (match f.country with | some c => ilike n.country c | none => true) &&
  (match f.content_type with | some c => n.tags.contains c | none => true)

/-- The intended WHERE clause of the news query emitted by the resolver and
the auto-notifier: not yet in the user's `user_news_views`, and matching
the user's filter row when one exists.  Nothing else appears in the query
text: neither `expires_at`, `is_duplicate`, `moderation_status`, the
`blocks` table, nor `current_feed_id` / `custom_feeds`.  It is exercised
only by the auto-notifier (and there only with valid SQL when the filter
part is absent, see `notifier_pick`); the resolver's statement never
parses. -/
def visibleTo (db : DB) (uid : Nat) (n : NewsItem) : Bool :=
  !hasView db.user_news_views uid n.id &&
  (match lookupFilter db uid with
   | some f => matchesFilter f n
   | none => true)

/-- `ORDER BY n.published_at DESC`. -/
def byPublishedDesc (a b : NewsItem) : Prop :=
  b.published_at ≤ a.published_at

instance : DecidableRel byPublishedDesc :=
  fun a b => inferInstanceAs (Decidable (b.published_at ≤ a.published_at))

instance : IsTotal NewsItem byPublishedDesc :=
  ⟨fun a b => Int.le_total b.published_at a.published_at⟩

instance : IsTrans NewsItem byPublishedDesc :=
  ⟨fun _ _ _ h1 h2 => le_trans h2 h1⟩

/-- `ORDER BY n.published_at DESC` (the order both queries request).  The
SQL specifies no tie-break, so the order of rows with equal `published_at`
is left to the database; we model it as table row order (a stable sort
realizes that choice). -/
def orderNews (l : List NewsItem) : List NewsItem :=
  l.insertionSort byPublishedDesc

/-- `INSERT INTO user_news_views (user_id, news_id, viewed, first_viewed_at)
VALUES ($1, $2, TRUE, NOW()) ON CONFLICT (user_id, news_id) DO UPDATE SET
viewed = TRUE, last_viewed_at = NOW()`. -/
def upsertView (views : List UserNewsView) (uid nid : Nat) : List UserNewsView :=
  if hasView views uid nid then
    views.map fun v =>
      if v.user_id == uid && v.news_id == nid then { v with viewed := true } else v
  else
    views ++ [{ user_id := uid, news_id := nid, viewed := true }]

/-- Whether `user_stats` has a row for this user. -/
def hasStats (stats : List UserStatsRow) (uid : Nat) : Bool :=
  stats.any fun s => s.user_id == uid

/-- `update_user_stats(conn, user_id, action)`: three recognized actions,
each an `INSERT ... VALUES ($1, 1, NOW()) ON CONFLICT (user_id) DO UPDATE SET
counter = counter + 1`; any other action is ignored. -/
def update_user_stats (stats : List UserStatsRow) (uid : Nat) (action : String) :
    List UserStatsRow :=
  if action == "viewed" then
    if hasStats stats uid then
      stats.map fun s => if s.user_id == uid then { s with viewed := s.viewed + 1 } else s
    else
      stats ++ [{ user_id := uid, viewed := 1, saved := 0, reported := 0 }]
  else if action == "saved" then
    if hasStats stats uid then
      stats.map fun s => if s.user_id == uid then { s with saved := s.saved + 1 } else s
    else
      stats ++ [{ user_id := uid, viewed := 0, saved := 1, reported := 0 }]
  else if action == "reported" then
    if hasStats stats uid then
      stats.map fun s => if s.user_id == uid then { s with reported := s.reported + 1 } else s
    else
      stats ++ [{ user_id := uid, viewed := 0, saved := 0, reported := 1 }]
  else
    stats

/-- Outcome of `GET /news/user_id`: either HTTP 200 with a (possibly
empty) JSON list, or HTTP 500 when the handler raises. -/
inductive NewsResponse where
  | page (items : List NewsItem)
  | serverError
deriving DecidableEq, Repr

/-- `GET /news/user_id?limit&offset` (`get_news_for_user_api`): an unknown
telegram id returns an empty list (HTTP 200, no write).  For a known user
the handler reads the filter row and the viewed ids (valid SQL), then calls
`conn.fetch` on the main query, whose text always ends
`ORDER BY n.published_at DESC LIMIT $ 2 OFFSET $ 3` — the f-string
`$ {param_idx}` emits a space, and with a filter row set the appended
conditions (`$ 2 = ANY(n.tags)`, `n.source ILIKE $ 2`, ...) are malformed
the same way.  PostgreSQL rejects `$ 2` as a syntax error, `conn.fetch`
raises, the handler (try/finally, no except) answers HTTP 500, no rows are
returned, and the post-fetch loop that would upsert `user_news_views` and
bump the stats is dead code.  The database is unchanged in every case. -/
def get_news_for_user_api (db : DB) (tid : Nat) (limit offset : Nat) :
    NewsResponse × DB :=
  match findUserByTelegram db tid with
  | none => (NewsResponse.page [], db)
  | some _ => (NewsResponse.serverError, db)

/-- Upsert for the `ratings` table: `INSERT ... ON CONFLICT (user_id, news_id)
DO UPDATE SET value = EXCLUDED.value`. -/
def upsertRating (rs : List RatingRow) (uid nid : Nat) (v : Int) : List RatingRow :=
  if rs.any (fun r => r.user_id == uid && r.news_id == nid) then
    rs.map fun r =>
      if r.user_id == uid && r.news_id == nid then { r with value := v } else r
  else
    rs ++ [{ user_id := uid, news_id := nid, value := v }]

/-- `POST /rate` (`save_rating_api`): when `1 <= value <= 5` it upserts the
rating and returns status 200; otherwise it returns the plain JSON body with
an error key — a plain `return`, so FastAPI's default status 200 applies, and
no database write happens.  The endpoint uses `req.user_id` directly, with no
telegram-id lookup. -/
def save_rating_api (db : DB) (uid nid : Nat) (v : Int) : ApiResponse × DB :=
  if 1 ≤ v ∧ v ≤ 5 then
    ({ status := 200, isError := false },
     { db with ratings := upsertRating db.ratings uid nid v })
  else
    ({ status := 200, isError := true }, db)

/-- `POST /block` (`block_source_api`): conflict-do-nothing insert into
`blocks`; no user lookup, no read of any other table. -/
def block_source_api (db : DB) (uid : Nat) (btype value : String) :
    ApiResponse × DB :=
  ({ status := 200, isError := false },
   { db with
     blocks :=
       if db.blocks.any fun b =>
            b.user_id == uid && b.block_type == btype && b.value == value then
         db.blocks
       else db.blocks ++ [{ user_id := uid, block_type := btype, value := value }] })

/-- `POST /bookmarks/add` (`add_bookmark_api`): 404 for an unknown user;
otherwise `INSERT INTO bookmarks ... ON CONFLICT (user_id, news_id) DO
NOTHING` followed by `update_user_stats(..., "saved")`. -/
def add_bookmark_api (db : DB) (tid nid : Nat) : ApiResponse × DB :=
  match findUserByTelegram db tid with
  | none => ({ status := 404, isError := true }, db)
  | some u =>
    ({ status := 200, isError := false },
     { db with
       bookmarks :=
         if db.bookmarks.any fun b => b.user_id == u.id && b.news_id == nid then
           db.bookmarks
         else db.bookmarks ++ [{ user_id := u.id, news_id := nid }]
       user_stats := update_user_stats db.user_stats u.id "saved" })

/-- `POST /custom_feeds/switch` (`switch_custom_feed_api`): 404 for an
unknown user, 403 when the feed does not exist or belongs to another user,
otherwise `UPDATE users SET current_feed_id = $1 WHERE id = $2`. -/
def switch_custom_feed_api (db : DB) (tid fid : Nat) : ApiResponse × DB :=
  match findUserByTelegram db tid with
  | none => ({ status := 404, isError := true }, db)
  | some u =>
    match db.custom_feeds.find? (fun f => f.id == fid && f.user_id == u.id) with
    | none => ({ status := 403, isError := true }, db)
    | some _ =>
      ({ status := 200, isError := false },
       { db with
         users := db.users.map fun w =>
           if w.id == u.id then { w with current_feed_id := some fid } else w })

/-- `POST /invite/accept` (`accept_invite_api`): look up an invite with this
code and `invited_user_id IS NULL`; 400 when none exists.  Otherwise set
`users.inviter_id` for every row with the invited telegram id, then mark the
invite accepted, storing the invited user's internal id via the subquery
`SELECT id FROM users WHERE telegram_id = $1` (NULL when absent) and
`accepted_at = NOW()`.  No self-referral test appears anywhere on this
path. -/
def accept_invite_api (db : DB) (code : String) (invitedTid : Nat) (now : Int) :
    ApiResponse × DB :=
  match db.invites.find? (fun i => i.invite_code == code && i.invited_user_id == none) with
  | none => ({ status := 400, isError := true }, db)
  | some inv =>
    let users' := db.users.map fun u =>
      if u.telegram_id == invitedTid then { u with inviter_id := some inv.inviter_user_id }
      else u
    let invitedInternal := (findUserByTelegram db invitedTid).map (fun u => u.id)
    let invites' := db.invites.map fun i =>
      if i.id == inv.id then
        { i with invited_user_id := invitedInternal, accepted_at := some now }
      else i
    ({ status := 200, isError := false }, { db with users := users', invites := invites' })

/-- Outcome of the outbound `bot.send_message` call, which is external I/O. -/
inductive SendResult where
  | ok
  | failed
deriving DecidableEq, Repr

/-- The auto-notifier's item selection for one user: the seen-set LEFT JOIN
plus filter conditions, `ORDER BY n.published_at DESC LIMIT 1` (fetchrow;
the LIMIT is a literal here, so unlike the resolver this query is valid SQL
whenever no filter condition is appended).  For a user whose filter row has
a non-null field the appended conditions carry the malformed `$ 2`
placeholders and the real cycle aborts with an exception (no pick, no send,
database unchanged); the model idealizes that case by still applying the
intended filter semantics, which only adds behaviors. -/
def notifier_pick (db : DB) (uid : Nat) : Option NewsItem :=
  (orderNews (db.news.filter (visibleTo db uid))).head?

/-- One iteration of `send_auto_notifications_task` for one user: pick at
most one item, attempt the send, and only inside the success branch of the
`try` upsert the `user_news_views` row and bump the stats; the `except`
branch merely logs, so a failed send leaves the database untouched.  The
first component is the item a send was attempted for, if any. -/
def notify_user_once (db : DB) (u : UserRow) (send : SendResult) :
    Option NewsItem × DB :=
  match notifier_pick db u.id with
  | none => (none, db)
  | some n =>
    match send with
    | SendResult.ok =>
      (some n,
       { db with
         user_news_views := upsertView db.user_news_views u.id n.id
         user_stats := update_user_stats db.user_stats u.id "viewed" })
    | SendResult.failed => (some n, db)

/-- First value of a rating lookup on (uid, nid). -/
def ratingValue (rs : List RatingRow) (uid nid : Nat) : Option Int :=
  (rs.find? fun r => r.user_id == uid && r.news_id == nid).map (fun r => r.value)

/-- Number of bookmark rows for (uid, nid). -/
def bookmarkCount (bms : List BookmarkRow) (uid nid : Nat) : Nat :=
  (bms.filter fun b => b.user_id == uid && b.news_id == nid).length

/-- The empty database. -/
def emptyDB : DB :=
  { users := [], news := [], filters := [], user_news_views := [], blocks := [],
    ratings := [], bookmarks := [], user_stats := [], invites := [],
    custom_feeds := [] }

/-- A registered user: internal id 1, telegram id 100. -/
def user100 : UserRow :=
  { id := 1, telegram_id := 100, current_feed_id := none,
    auto_notifications := true, inviter_id := none }

/-- News row builder for concrete instances (title/content/lang/country and
link fixed, the claim-relevant columns given). -/
def mkItem (id : Nat) (tags : List String) (source : String)
    (pub expiry : Int) (dup : Bool) (modstat : String) : NewsItem :=
  { id := id, title := "t", content := "c", lang := "uk", country := "UA",
    tags := tags, source := source, link := none, published_at := pub,
    expires_at := expiry, is_duplicate := dup, moderation_status := modstat }

/-- An expired, duplicate, unapproved news row. -/
def newsC1 : NewsItem := mkItem 1 ["tech"] "S" 10 0 true "pending"

/-- Database for the base-predicate check: one user, one news row violating
every conjunct of the base predicate. -/
def dbC1 : DB := { emptyDB with users := [user100], news := [newsC1] }

/-- A news row carrying both the filtered tag and a blocked tag. -/
def newsC2 : NewsItem := mkItem 1 ["tech", "ai"] "S" 10 100 false "approved"

/-- Scenario S2 of the spec before the block: user 1 filters tag "tech". -/
def dbC2pre : DB :=
  { emptyDB with
    users := [user100]
    filters := [{ user_id := 1, tag := some "tech", category := none,
                  source := none, language := none, country := none,
                  content_type := none }]
    news := [newsC2] }

/-- Scenario S2 after POST /block of ("tag", "ai") for user 1. -/
def dbC2 : DB := (block_source_api dbC2pre 1 "tag" "ai").2

/-- News row with source "A" (scenario S3). -/
def newsC4a : NewsItem := mkItem 1 [] "A" 10 100 false "approved"

/-- News row with source "B" (scenario S3). -/
def newsC4b : NewsItem := mkItem 2 [] "B" 9 100 false "approved"

/-- Scenario S3: user 1 has filter source "A", an active custom feed 7 with
filters sources = ["B"], and both news rows are present. -/
def dbC4 : DB :=
  { emptyDB with
    users := [{ user100 with current_feed_id := some 7 }]
    filters := [{ user_id := 1, tag := none, category := none,
                  source := some "A", language := none, country := none,
                  content_type := none }]
    news := [newsC4a, newsC4b]
    custom_feeds := [{ id := 7, user_id := 1, feed_name := "F",
                       filters := [("sources", ["B"])] }] }

/-- Database with one user and an unused invite issued by that same user. -/
def dbC6 : DB :=
  { emptyDB with
    users := [user100]
    invites := [{ id := 1, inviter_user_id := 1, invite_code := "abc",
                  invited_user_id := none, accepted_at := none }] }

/-- A fresh news row for the auto-notifier instance. -/
def newsC7 : NewsItem := mkItem 1 [] "S" 5 100 false "approved"

/-- Database for the auto-notifier instance: one auto-notification user and
one unseen news row. -/
def dbC7 : DB := { emptyDB with users := [user100], news := [newsC7] }

/-- Two news rows with equal `published_at` and ids 1 and 2, stored in
ascending id order. -/
def newsC8a : NewsItem := mkItem 1 [] "S" 5 100 false "approved"

/-- Second news row of the ordering instance. -/
def newsC8b : NewsItem := mkItem 2 [] "S" 5 100 false "approved"

/-- Database for the ordering instance. -/
def dbC8 : DB := { emptyDB with users := [user100], news := [newsC8a, newsC8b] }

/-- Database for the bookmark instance: one user, no bookmarks yet. -/
def dbC9 : DB := { emptyDB with users := [user100] }

/-- Two fresh news rows for the read-effect instance. -/
def newsC10a : NewsItem := mkItem 1 [] "S" 7 100 false "approved"

/-- Second news row of the read-effect instance. -/
def newsC10b : NewsItem := mkItem 2 [] "S" 6 100 false "approved"

/-- Database for the read-effect instance. -/
def dbC10 : DB :=
  { emptyDB with users := [user100], news := [newsC10a, newsC10b] }

end News105

namespace News105

/-! ## Library lemmas about the modelled table operations -/

/-- `find?` commutes with a row-update `map` that preserves the predicate. -/
theorem find?_map_pres {α : Type} (l : List α) (f : α → α) (p : α → Bool)
    (h : ∀ a, p (f a) = p a) : (l.map f).find? p = (l.find? p).map f := by
  induction l with
  | nil => rfl
  | cons a l ih =>
    cases ha : p a with
    | true =>
      rw [List.map_cons, List.find?_cons_of_pos _ (by rw [h]; exact ha),
        List.find?_cons_of_pos _ ha, Option.map_some']
    | false =>
      rw [List.map_cons, List.find?_cons_of_neg _ (by simp [h, ha]),
        List.find?_cons_of_neg _ (by simp [ha]), ih]

/-- A positive `any` forces a nonempty `filter`. -/
theorem filter_length_pos_of_any {α : Type} {l : List α} {p : α → Bool}
    (h : l.any p = true) : 0 < (l.filter p).length := by
  obtain ⟨x, hx, hpx⟩ := List.any_eq_true.mp h
  exact List.length_pos.mpr (List.ne_nil_of_mem (List.mem_filter.mpr ⟨hx, hpx⟩))

/-- A negative `any` forces an empty `filter`. -/
theorem filter_eq_nil_of_any_false {α : Type} {l : List α} {p : α → Bool}
    (h : l.any p = false) : l.filter p = [] :=
  List.filter_eq_nil_iff.mpr (List.any_eq_false.mp h)

/-- Sorting a list does not change its members. -/
theorem mem_orderNews {n : NewsItem} {l : List NewsItem} :
    n ∈ orderNews l ↔ n ∈ l :=
  (List.perm_insertionSort byPublishedDesc l).mem_iff

/-- The WHERE clause includes the seen-set subtraction. -/
theorem hasView_false_of_visible {db : DB} {uid : Nat} {n : NewsItem}
    (h : visibleTo db uid n = true) :
    hasView db.user_news_views uid n.id = false := by
  have h1 := ((Bool.and_eq_true _ _).mp h).1
  simpa using h1

/-- The upserted (uid, nid) row is present after `upsertView`. -/
theorem hasView_upsert_self (vs : List UserNewsView) (uid nid : Nat) :
    hasView (upsertView vs uid nid) uid nid = true := by
  by_cases hab : hasView vs uid nid = true
  · obtain ⟨v, hv, hkv⟩ := List.any_eq_true.mp hab
    unfold upsertView
    rw [if_pos hab]
    refine List.any_eq_true.mpr ⟨_, List.mem_map_of_mem _ hv, ?_⟩
    simp [hkv]
  · unfold upsertView
    rw [if_neg hab]
    simp [hasView, List.any_append]

/-- A boolean that is not true is false. -/
theorem bool_eq_false {b : Bool} (h : ¬ b = true) : b = false := by
  cases b
  · rfl
  · exact absurd rfl h

/-- The ratings upsert leaves the (uid, nid) lookup at the new value. -/
theorem ratingValue_upsert (rs : List RatingRow) (uid nid : Nat) (v : Int) :
    ratingValue (upsertRating rs uid nid v) uid nid = some v := by
  by_cases hc : (rs.any fun r => r.user_id == uid && r.news_id == nid) = true
  · unfold upsertRating
    rw [if_pos hc]
    unfold ratingValue
    have hpf : ∀ r : RatingRow,
        ((fun r : RatingRow => r.user_id == uid && r.news_id == nid)
          (if r.user_id == uid && r.news_id == nid then { r with value := v } else r))
          = (r.user_id == uid && r.news_id == nid) := by
      intro r
      by_cases hk : (r.user_id == uid && r.news_id == nid) = true <;> simp [hk]
    rw [find?_map_pres rs _ _ hpf]
    obtain ⟨r0, hr0⟩ : ∃ r0, rs.find? (fun r => r.user_id == uid && r.news_id == nid) = some r0 :=
      Option.isSome_iff_exists.mp (List.find?_isSome.mpr (List.any_eq_true.mp hc))
    rw [hr0]
    have hp0 := List.find?_some hr0
    simp only [Option.map_some']
    rw [if_pos hp0]
  · unfold upsertRating
    rw [if_neg hc]
    unfold ratingValue
    rw [List.find?_append]
    have hnone : rs.find? (fun r => r.user_id == uid && r.news_id == nid) = none :=
      List.find?_eq_none.mpr (List.any_eq_false.mp (bool_eq_false hc))
    rw [hnone]
    simp

/-- The ratings upsert preserves the 1..5 bound when the new value has it. -/
theorem upsertRating_value_bound {rs : List RatingRow} {uid nid : Nat} {v : Int}
    (hinv : ∀ r ∈ rs, 1 ≤ r.value ∧ r.value ≤ 5) (hv : 1 ≤ v ∧ v ≤ 5) :
    ∀ r ∈ upsertRating rs uid nid v, 1 ≤ r.value ∧ r.value ≤ 5 := by
  intro r hr
  unfold upsertRating at hr
  by_cases hc : (rs.any fun r => r.user_id == uid && r.news_id == nid) = true
  · rw [if_pos hc] at hr
    obtain ⟨x, hx, hfx⟩ := List.mem_map.mp hr
    by_cases hk : (x.user_id == uid && x.news_id == nid) = true
    · rw [if_pos hk] at hfx
      rw [← hfx]
      exact hv
    · rw [if_neg hk] at hfx
      rw [← hfx]
      exact hinv x hx
  · rw [if_neg hc] at hr
    rcases List.mem_append.mp hr with h1 | h1
    · exact hinv r h1
    · have h2 : r = { user_id := uid, news_id := nid, value := v } := by simpa using h1
      rw [h2]
      exact hv

/-- The auto-notifier's pick satisfies exactly the resolver WHERE clause. -/
theorem pick_visible {db : DB} {uid : Nat} {n : NewsItem}
    (h : notifier_pick db uid = some n) :
    n ∈ db.news ∧ visibleTo db uid n = true := by
  unfold notifier_pick at h
  have hmem : n ∈ orderNews (db.news.filter (visibleTo db uid)) := by
    cases hl : orderNews (db.news.filter (visibleTo db uid)) with
    | nil => rw [hl] at h; exact absurd h (by simp)
    | cons a l =>
      rw [hl] at h
      have ha : a = n := by simpa using h
      rw [← ha]
      exact List.mem_cons_self a l
  exact List.mem_filter.mp (mem_orderNews.mp hmem)

/-- The attempted item of one notifier step is its pick, whatever the send
outcome. -/
theorem notify_fst (db : DB) (u : UserRow) (send : SendResult) :
    (notify_user_once db u send).1 = notifier_pick db u.id := by
  unfold notify_user_once
  cases notifier_pick db u.id <;> cases send <;> rfl

/-- POST /bookmarks/add leaves the users table alone. -/
theorem add_bookmark_users {db : DB} {tid nid : Nat} {u : UserRow}
    (hu : findUserByTelegram db tid = some u) :
    (add_bookmark_api db tid nid).2.users = db.users := by
  unfold add_bookmark_api
  rw [hu]

/-- With the pair already present, POST /bookmarks/add leaves the bookmarks
table alone. -/
theorem add_bookmark_present {db : DB} {tid nid : Nat} {u : UserRow}
    (hu : findUserByTelegram db tid = some u)
    (hb : (db.bookmarks.any fun b => b.user_id == u.id && b.news_id == nid) = true) :
    (add_bookmark_api db tid nid).2.bookmarks = db.bookmarks := by
  unfold add_bookmark_api
  rw [hu]
  show (if (db.bookmarks.any fun b => b.user_id == u.id && b.news_id == nid) = true then
      db.bookmarks
    else db.bookmarks ++ [{ user_id := u.id, news_id := nid }]) = db.bookmarks
  rw [if_pos hb]

/-- With the pair absent, POST /bookmarks/add appends exactly one row. -/
theorem add_bookmark_absent {db : DB} {tid nid : Nat} {u : UserRow}
    (hu : findUserByTelegram db tid = some u)
    (hb : (db.bookmarks.any fun b => b.user_id == u.id && b.news_id == nid) = false) :
    (add_bookmark_api db tid nid).2.bookmarks
      = db.bookmarks ++ [{ user_id := u.id, news_id := nid }] := by
  unfold add_bookmark_api
  rw [hu]
  show (if (db.bookmarks.any fun b => b.user_id == u.id && b.news_id == nid) = true then
      db.bookmarks
    else db.bookmarks ++ [{ user_id := u.id, news_id := nid }])
    = db.bookmarks ++ [{ user_id := u.id, news_id := nid }]
  rw [if_neg (by simp [hb])]

/-! ## Claims -/

/-- Claim C1 (code bug): the base predicate describes the intended
resolver; in the code every known-user call to GET /news/user_id raises a
PostgreSQL syntax error on the malformed `LIMIT $ 2 OFFSET $ 3` placeholders
and returns no items (serverError, database unchanged) — evaluated here at a
database whose only item is expired, flagged duplicate and unapproved; the
only completed calls (unknown user) return an empty list. -/
theorem C1_code_bug :
    (get_news_for_user_api dbC1 100 10 0).1 = NewsResponse.serverError ∧
    (get_news_for_user_api dbC1 100 10 0).2 = dbC1 ∧
    (get_news_for_user_api dbC1 999 10 0).1 = NewsResponse.page [] ∧
    newsC1.is_duplicate = true ∧ newsC1.moderation_status = "pending" := by decide

/-- Claim C2 (code bug): blocklist subtraction describes the intended
resolver; in the code, after user 1 blocks tag "ai" through POST /block,
the resolver call for that user raises on the malformed placeholders
(serverError, database unchanged) instead of producing any — let alone a
block-respecting — result; the query text also never reads the blocks
table. -/
theorem C2_code_bug :
    dbC2.blocks = [{ user_id := 1, block_type := "tag", value := "ai" }] ∧
    (get_news_for_user_api dbC2 100 10 0).1 = NewsResponse.serverError ∧
    (get_news_for_user_api dbC2 100 10 0).2 = dbC2 := by decide

/-- Claim C3 (code bug): the seen-set subtraction and mark-viewed write-back
the claim relies on never execute — no call of GET /news/user_id ever
returns a nonempty page (known users get serverError, unknown users get the
empty page), and repeating the call at the concrete database raises
identically with the state unchanged. -/
theorem C3_code_bug :
    (∀ (db : DB) (tid limit offset : Nat),
       (get_news_for_user_api db tid limit offset).1 = NewsResponse.serverError ∨
       (get_news_for_user_api db tid limit offset).1 = NewsResponse.page []) ∧
    get_news_for_user_api dbC10 100 10 0 = (NewsResponse.serverError, dbC10) ∧
    get_news_for_user_api (get_news_for_user_api dbC10 100 10 0).2 100 10 0
      = (NewsResponse.serverError, dbC10) := by
  refine ⟨?_, by decide, by decide⟩
  intro db tid limit offset
  unfold get_news_for_user_api
  cases findUserByTelegram db tid
  · right
    rfl
  · left
    rfl

/-- Claim C4 (code bug): custom-feed override describes the intended
resolver; in the code, at scenario S3 (Filter row source "A", active custom
feed 7 with sources ["B"], items of both sources present) the call raises on
the malformed placeholders (serverError, database unchanged) and returns
neither item; the query text also never consults current_feed_id or
custom_feeds. -/
theorem C4_code_bug :
    (lookupFilter dbC4 1).isSome = true ∧
    dbC4.custom_feeds ≠ [] ∧
    (get_news_for_user_api dbC4 100 10 0).1 = NewsResponse.serverError ∧
    (get_news_for_user_api dbC4 100 10 0).2 = dbC4 := by decide

/-- Claim C5 counterexample: POST /rate with value 0 answers HTTP 200 with
an error body (FastAPI's default status for a plain return), not 400; no
Rating row is written. -/
theorem C5_counterexample :
    (save_rating_api emptyDB 1 1 0).1.status = 200 ∧
    (save_rating_api emptyDB 1 1 0).1.status ≠ 400 ∧
    (save_rating_api emptyDB 1 1 0).1.isError = true ∧
    (save_rating_api emptyDB 1 1 0).2 = emptyDB := by decide

/-- Claim C5 (amended): POST /rate rejects every out-of-range value with an
error body (HTTP 200, not 400) and writes nothing; every in-range value is
upserted on (user, news_id) — so a later in-range rating overwrites an
earlier one — and the 1..5 bound on persisted Rating rows is preserved. -/
theorem C5_amended (db : DB) (uid nid : Nat) (v : Int) :
    (¬ (1 ≤ v ∧ v ≤ 5) →
       (save_rating_api db uid nid v).1 = { status := 200, isError := true } ∧
       (save_rating_api db uid nid v).2 = db) ∧
    ((1 ≤ v ∧ v ≤ 5) →
       (save_rating_api db uid nid v).1 = { status := 200, isError := false } ∧
       ratingValue (save_rating_api db uid nid v).2.ratings uid nid = some v) ∧
    ((∀ r ∈ db.ratings, 1 ≤ r.value ∧ r.value ≤ 5) → (1 ≤ v ∧ v ≤ 5) →
       ∀ r ∈ (save_rating_api db uid nid v).2.ratings, 1 ≤ r.value ∧ r.value ≤ 5) := by
  refine ⟨?_, ?_, ?_⟩
  · intro h
    constructor
    · simp [save_rating_api, h]
    · simp [save_rating_api, h]
  · intro h
    constructor
    · simp [save_rating_api, h]
    · have hr : (save_rating_api db uid nid v).2.ratings = upsertRating db.ratings uid nid v := by
        simp [save_rating_api, h]
      rw [hr]
      exact ratingValue_upsert db.ratings uid nid v
  · intro hinv hv
    have hr : (save_rating_api db uid nid v).2.ratings = upsertRating db.ratings uid nid v := by
      simp [save_rating_api, hv]
    rw [hr]
    exact upsertRating_value_bound hinv hv

/-- Witness for C5_amended: value 0 is rejected without a write, value 3 is
persisted. -/
theorem C5_witness :
    (save_rating_api emptyDB 1 2 0).2 = emptyDB ∧
    ratingValue (save_rating_api emptyDB 1 2 3).2.ratings 1 2 = some 3 :=
  ⟨((C5_amended emptyDB 1 2 0).1 (by decide)).2,
   ((C5_amended emptyDB 1 2 3).2.1 (by decide)).2⟩

/-- Claim C6 counterexample: user 1 accepts their own invite code "abc";
the call succeeds with HTTP 200 and both the users and invites tables
change — the user's inviter_id becomes their own internal id. -/
theorem C6_counterexample :
    (accept_invite_api dbC6 "abc" 100 50).1.status = 200 ∧
    (accept_invite_api dbC6 "abc" 100 50).2 ≠ dbC6 ∧
    (accept_invite_api dbC6 "abc" 100 50).2.users
      = [{ user100 with inviter_id := some 1 }] := by decide

/-- Claim C6 (amended): accept_invite rejects only an unknown or
already-accepted code (400, tables unchanged); it performs no self-referral
check, so accepting a code generated by the invited user themselves
succeeds (200) and sets that user's inviter_id to their own internal id. -/
theorem C6_amended (db : DB) (code : String) (tid : Nat) (now : Int) :
    (db.invites.find? (fun i => i.invite_code == code && i.invited_user_id == none) = none →
       (accept_invite_api db code tid now).1 = { status := 400, isError := true } ∧
       (accept_invite_api db code tid now).2 = db) ∧
    ∀ inv u,
      db.invites.find? (fun i => i.invite_code == code && i.invited_user_id == none)
        = some inv →
      findUserByTelegram db tid = some u →
      inv.inviter_user_id = u.id →
      (accept_invite_api db code tid now).1 = { status := 200, isError := false } ∧
      ∀ w ∈ (accept_invite_api db code tid now).2.users,
        w.telegram_id = tid → w.inviter_id = some u.id := by
  constructor
  · intro h
    constructor
    · simp [accept_invite_api, h]
    · simp [accept_invite_api, h]
  · intro inv u hinv hu hself
    refine ⟨by simp [accept_invite_api, hinv], ?_⟩
    intro w hw hwt
    have husers : (accept_invite_api db code tid now).2.users
        = db.users.map (fun x =>
            if x.telegram_id == tid then { x with inviter_id := some inv.inviter_user_id }
            else x) := by
      simp [accept_invite_api, hinv]
    rw [husers] at hw
    obtain ⟨x, hx, hfx⟩ := List.mem_map.mp hw
    by_cases hxt : (x.telegram_id == tid) = true
    · rw [if_pos hxt] at hfx
      rw [← hfx]
      simp [hself]
    · rw [if_neg hxt] at hfx
      rw [← hfx] at hwt
      exact absurd (show (x.telegram_id == tid) = true by simpa using hwt) hxt

/-- Witness for C6_amended at the concrete self-referral database. -/
theorem C6_witness :
    (accept_invite_api dbC6 "abc" 100 50).1 = { status := 200, isError := false } :=
  ((C6_amended dbC6 "abc" 100 50).2
    { id := 1, inviter_user_id := 1, invite_code := "abc",
      invited_user_id := none, accepted_at := none }
    user100 (by decide) (by decide) (by decide)).1

/-- Claim C8 (code bug): the claimed ordering describes the intended query
(whose text orders by `published_at DESC` alone, without the id tie-break);
in the code the statement never parses, so there is no ordering behavior at
all — at a database holding two items with equal `published_at` the call
raises (serverError) and returns no items, database unchanged. -/
theorem C8_code_bug :
    newsC8a.published_at = newsC8b.published_at ∧
    newsC8a.id < newsC8b.id ∧
    (get_news_for_user_api dbC8 100 10 0).1 = NewsResponse.serverError ∧
    (get_news_for_user_api dbC8 100 10 0).2 = dbC8 := by decide

/-- Claim C9: POST /bookmarks/add is idempotent on the bookmarks table —
under the table's unique-pair constraint, the first call leaves exactly one
(user, news) row and the second call leaves the table unchanged. -/
theorem C9_idempotent (db : DB) (tid nid : Nat) (u : UserRow)
    (hu : findUserByTelegram db tid = some u)
    (hcount : bookmarkCount db.bookmarks u.id nid ≤ 1) :
    (add_bookmark_api (add_bookmark_api db tid nid).2 tid nid).2.bookmarks
      = (add_bookmark_api db tid nid).2.bookmarks ∧
    bookmarkCount (add_bookmark_api db tid nid).2.bookmarks u.id nid = 1 := by
  have hu1 : findUserByTelegram (add_bookmark_api db tid nid).2 tid = some u := by
    unfold findUserByTelegram
    rw [add_bookmark_users hu]
    exact hu
  by_cases hb : (db.bookmarks.any fun b => b.user_id == u.id && b.news_id == nid) = true
  · have h1 := add_bookmark_present hu hb
    constructor
    · rw [add_bookmark_present hu1 (by rw [h1]; exact hb), h1]
    · rw [h1]
      have hpos := filter_length_pos_of_any hb
      unfold bookmarkCount at hcount ⊢
      omega
  · have hbf : (db.bookmarks.any fun b => b.user_id == u.id && b.news_id == nid) = false :=
      bool_eq_false hb
    have h1 := add_bookmark_absent hu hbf
    have hany2 : ((add_bookmark_api db tid nid).2.bookmarks.any
        fun b => b.user_id == u.id && b.news_id == nid) = true := by
      rw [h1]
      simp [List.any_append]
    constructor
    · exact add_bookmark_present hu1 hany2
    · rw [h1]
      unfold bookmarkCount
      rw [List.filter_append, filter_eq_nil_of_any_false hbf]
      simp

/-- Witness for C9_idempotent at a user with no bookmarks. -/
theorem C9_witness : bookmarkCount (add_bookmark_api dbC9 100 5).2.bookmarks 1 5 = 1 :=
  (C9_idempotent dbC9 100 5 user100 (by decide) (by decide)).2

/-- Claim C7 counterexample: the notifier attempts the send first; on a
failed send the database — in particular the mark-viewed write — is left
untouched, and the very same item is attempted (and this time delivered)
again on the next cycle. -/
theorem C7_counterexample :
    (notify_user_once dbC7 user100 SendResult.failed).1 = some newsC7 ∧
    (notify_user_once dbC7 user100 SendResult.failed).2 = dbC7 ∧
    hasView (notify_user_once dbC7 user100 SendResult.failed).2.user_news_views 1 1
      = false ∧
    (notify_user_once (notify_user_once dbC7 user100 SendResult.failed).2
        user100 SendResult.ok).1 = some newsC7 := by decide

/-- Claim C7 (amended): the auto-notifier marks an item viewed only after a
successful send — a failed send leaves the database (and so the mark-viewed
write) untouched, and the item is retried on the next cycle; after a
successful send the item is marked viewed and is never picked for that user
again. -/
theorem C7_amended (db : DB) (u : UserRow) :
    (notify_user_once db u SendResult.failed).2 = db ∧
    ∀ n, (notify_user_once db u SendResult.ok).1 = some n →
      hasView (notify_user_once db u SendResult.ok).2.user_news_views u.id n.id = true ∧
      ∀ send, (notify_user_once (notify_user_once db u SendResult.ok).2 u send).1
        ≠ some n := by
  constructor
  · unfold notify_user_once
    cases notifier_pick db u.id <;> rfl
  · intro n hn
    rw [notify_fst] at hn
    have hdb2 : (notify_user_once db u SendResult.ok).2
        = { db with
            user_news_views := upsertView db.user_news_views u.id n.id
            user_stats := update_user_stats db.user_stats u.id "viewed" } := by
      unfold notify_user_once
      rw [hn]
    constructor
    · rw [hdb2]
      exact hasView_upsert_self db.user_news_views u.id n.id
    · intro send hcontra
      rw [notify_fst] at hcontra
      have hvis := (pick_visible hcontra).2
      have hfalse := hasView_false_of_visible hvis
      have hfalse' :
          hasView (upsertView db.user_news_views u.id n.id) u.id n.id = false := by
        rw [hdb2] at hfalse
        exact hfalse
      rw [hasView_upsert_self db.user_news_views u.id n.id] at hfalse'
      exact Bool.noConfusion hfalse'

/-- Witness for C7_amended: the delivered item is marked viewed. -/
theorem C7_witness :
    hasView (notify_user_once dbC7 user100 SendResult.ok).2.user_news_views 1 1 = true :=
  ((C7_amended dbC7 user100).2 newsC7 (by decide)).1

/-- Claim C10 (code bug): the claim describes the write-back loop at
webapp.py:621-630, but that loop is dead code — GET /news/user_id is
read-only in every execution: the state is always returned unchanged, a
known user's call raises on the malformed query (serverError, no page), and
the only completed calls (unknown user) return an empty list. -/
theorem C10_code_bug :
    (∀ (db : DB) (tid limit offset : Nat),
       (get_news_for_user_api db tid limit offset).2 = db) ∧
    (get_news_for_user_api dbC10 100 10 0).1 = NewsResponse.serverError ∧
    (get_news_for_user_api dbC10 999 10 0).1 = NewsResponse.page [] := by
  refine ⟨?_, by decide, by decide⟩
  intro db tid limit offset
  unfold get_news_for_user_api
  cases findUserByTelegram db tid
  · rfl
  · rfl

end News105
